import Mathlib

/-!
Verification of the iota-tpu miner telemetry pipeline.

Shallow embedding of the telemetry core of the repository:
* `src/miner/src/miner/pool/stats.py` (StatsTracker),
* `src/miner/src/miner/pool/dashboard/lifecycle.py` (snapshot worker, bounded
  snapshot channel),
* `src/miner/src/miner/pool/dashboard/dashboard.py` (renderer loop),
* `src/miner/src/miner/pool/dashboard/chart.py` (ASCII chart plotter).

Python floats are modelled as rationals (ℚ); a possibly-NaN float is modelled
as `Option ℚ` with `none` playing the role of NaN.  Calls to the monotonic
clock `time.monotonic()` are modelled by passing the current time
explicitly.  Python exceptions are modelled with `Except String`.
-/

namespace IotaTPU

/-- `ActivationSample` from `stats.py`: a single activation processing event
(timestamp from the monotonic clock, direction "forward" or "backward"). -/
structure ActivationSample where
  timestamp : ℚ
  direction : String
deriving Repr, DecidableEq

/-- `LossSample` from `stats.py`: a scalar loss value with its record time. -/
structure LossSample where
  timestamp : ℚ
  value : ℚ
deriving Repr, DecidableEq

/-- The `StatsTracker` dataclass from `stats.py`.  The deque `_activations` is
modelled as a list (front of the deque = head of the list); `_loss_history` is
a list together with `_loss_maxlen`, the `maxlen` of the underlying deque
(which `__post_init__` sets to `loss_history_size` at construction time and
which `deque.clear()` preserves). -/
structure StatsTracker where
  activation_history_window : ℚ
  loss_history_size : ℕ
  current_layer : Option ℤ
  current_phase : Option String
  remote_epoch : Option ℤ
  local_epoch : Option ℤ
  run_id : Option String
  _forward_count : ℤ
  _backward_count : ℤ
  _download_bytes : ℤ
  _upload_bytes : ℤ
  _activations : List ActivationSample
  _loss_history : List LossSample
  _loss_maxlen : ℕ
deriving Repr, DecidableEq

/-- Constructing a `StatsTracker(activation_history_window=…, loss_history_size=…)`:
all counters start at zero, the state fields at `None`, both deques empty, and
`__post_init__` rebuilds `_loss_history` so that its `maxlen` equals
`loss_history_size`. -/
def mkStatsTracker (activation_history_window : ℚ := 300)
    (loss_history_size : ℕ := 50) : StatsTracker where
  activation_history_window := activation_history_window
  loss_history_size := loss_history_size
  current_layer := none
  current_phase := none
  remote_epoch := none
  local_epoch := none
  run_id := none
  _forward_count := 0
  _backward_count := 0
  _download_bytes := 0
  _upload_bytes := 0
  _activations := []
  _loss_history := []
  _loss_maxlen := loss_history_size

/-- `StatsTracker._prune_activations`: pop samples from the left of the deque
while the front sample is older than `current_time - window_seconds`. -/
def _prune_activations (t : StatsTracker) (current_time window_seconds : ℚ) :
    StatsTracker :=
  { t with _activations :=
      t._activations.dropWhile fun s =>
        decide (s.timestamp < current_time - window_seconds) }

/-- `StatsTracker._record_activation`: append a sample (the `timestamp=None`
default means the current monotonic time, which we pass explicitly), then
prune with the configured window. -/
def _record_activation (t : StatsTracker) (direction : String) (timestamp : ℚ) :
    StatsTracker :=
  _prune_activations
    { t with _activations :=
        t._activations ++ [{ timestamp := timestamp, direction := direction }] }
    timestamp t.activation_history_window

/-- `StatsTracker.record_forward`. -/
def record_forward (t : StatsTracker) (timestamp : ℚ) : StatsTracker :=
  _record_activation { t with _forward_count := t._forward_count + 1 }
    "forward" timestamp

/-- `StatsTracker.record_backward`. -/
def record_backward (t : StatsTracker) (timestamp : ℚ) : StatsTracker :=
  _record_activation { t with _backward_count := t._backward_count + 1 }
    "backward" timestamp

/-- `StatsTracker.record_download`: raises `ValueError` on a negative byte
count, otherwise adds to `_download_bytes`. -/
def record_download (t : StatsTracker) (byte_count : ℤ) :
    Except String StatsTracker :=
  if byte_count < 0 then .error "byte_count must be non-negative"
  else .ok { t with _download_bytes := t._download_bytes + byte_count }

/-- `StatsTracker.record_upload`: raises `ValueError` on a negative byte
count, otherwise adds to `_upload_bytes`. -/
def record_upload (t : StatsTracker) (byte_count : ℤ) :
    Except String StatsTracker :=
  if byte_count < 0 then .error "byte_count must be non-negative"
  else .ok { t with _upload_bytes := t._upload_bytes + byte_count }

/-- Appending to a deque with a `maxlen`: the new element goes on the right
and, if the length now exceeds `maxlen`, elements are discarded from the
left. -/
def dequeAppend {α : Type} (l : List α) (maxlen : ℕ) (s : α) : List α :=
  let l2 := l ++ [s]
  if maxlen < l2.length then l2.drop (l2.length - maxlen) else l2

/-- `StatsTracker.record_loss` (the `timestamp=None` default is again the
monotonic clock, passed explicitly). -/
def record_loss (t : StatsTracker) (loss_value : ℚ) (timestamp : ℚ) :
    StatsTracker :=
  let sample : LossSample := { timestamp := timestamp, value := loss_value }
  { t with _loss_history := dequeAppend t._loss_history t._loss_maxlen sample }

/-- A Python object that may be passed to `set_phase` / `set_run_id`; `pyStr`
models Python's `str()` on it. -/
inductive PyValue where
  | str (s : String)
  | int (n : ℤ)
  | enumMember (cls member : String)
deriving Repr, DecidableEq

/-- Python `str()` on a `PyValue`; `str` on an enum member such as
`LayerPhase.TRAINING` yields `"LayerPhase.TRAINING"`. -/
def pyStr : PyValue → String
  | .str s => s
  | .int n => toString n
  | .enumMember cls member => cls ++ "." ++ member

/-- `StatsTracker.set_layer`. -/
def set_layer (t : StatsTracker) (layer : Option ℤ) : StatsTracker :=
  { t with current_layer := layer }

/-- `StatsTracker.set_phase`: stores `str(phase)` when `phase is not None`,
otherwise `None`. -/
def set_phase (t : StatsTracker) (phase : Option PyValue) : StatsTracker :=
  { t with current_phase := phase.map pyStr }

/-- `StatsTracker.set_remote_epoch`. -/
def set_remote_epoch (t : StatsTracker) (epoch : Option ℤ) : StatsTracker :=
  { t with remote_epoch := epoch }

/-- `StatsTracker.set_local_epoch`. -/
def set_local_epoch (t : StatsTracker) (epoch : Option ℤ) : StatsTracker :=
  { t with local_epoch := epoch }

/-- `StatsTracker.set_run_id`: stores `str(run_id)` when not `None`. -/
def set_run_id (t : StatsTracker) (run_id : Option PyValue) : StatsTracker :=
  { t with run_id := run_id.map pyStr }

/-- `StatsTracker.reset` exactly as written in `stats.py`: note that it
assigns `activation_history_window = 300.0` and `loss_history_size = 50`
unconditionally (the deque's `maxlen` is preserved by `clear()`). -/
def reset (t : StatsTracker) : StatsTracker :=
  { t with
    activation_history_window := 300
    loss_history_size := 50
    current_layer := none
    current_phase := none
    remote_epoch := none
    local_epoch := none
    run_id := none
    _forward_count := 0
    _backward_count := 0
    _download_bytes := 0
    _upload_bytes := 0
    _activations := []
    _loss_history := [] }

/-- Property `StatsTracker.forward_count`. -/
def forward_count (t : StatsTracker) : ℤ := t._forward_count

/-- Property `StatsTracker.backward_count`. -/
def backward_count (t : StatsTracker) : ℤ := t._backward_count

/-- Property `StatsTracker.total_activations`. -/
def total_activations (t : StatsTracker) : ℤ :=
  t._forward_count + t._backward_count

/-- Property `StatsTracker.download_bytes`. -/
def download_bytes (t : StatsTracker) : ℤ := t._download_bytes

/-- Property `StatsTracker.upload_bytes`. -/
def upload_bytes (t : StatsTracker) : ℤ := t._upload_bytes

/-- `StatsTracker.activation_rate(window_seconds=…)`: `now` is the value of
`monotonic()` at the call, passed explicitly; `window_seconds = none` models
the `None` default (use the configured window).  Returns the tracker after
pruning together with the computed rate; `1e-6` is the ε of the source. -/
def activation_rate (t : StatsTracker) (now : ℚ) (window_seconds : Option ℚ) :
    StatsTracker × ℚ :=
  let w := window_seconds.getD t.activation_history_window
  let t2 := _prune_activations t now w
  match t2._activations with
  | [] => (t2, 0)
  | a :: _ =>
    let count : ℕ :=
      t2._activations.countP fun s => decide (now - s.timestamp ≤ w)
    if count = 0 ∨ w ≤ 0 then (t2, 0)
    else (t2, ((count : ℚ) / min w (now - a.timestamp + 1 / 1000000)) * 60)

/-- `StatsTracker.loss_history()`. -/
def loss_history (t : StatsTracker) : List LossSample := t._loss_history

/-- The dict returned by `StatsTracker.loss_summary` (Python returns `count`
as `float(count)`, hence ℚ here). -/
structure LossSummary where
  count : ℚ
  min : ℚ
  max : ℚ
  avg : ℚ
  latest : ℚ
deriving Repr, DecidableEq

/-- `StatsTracker.loss_summary`: `None` when the history is empty, otherwise
count / min / max / avg / latest over the recorded loss values. -/
def loss_summary (t : StatsTracker) : Option LossSummary :=
  match t._loss_history with
  | [] => none
  | s :: rest =>
    let losses := s.value :: rest.map (·.value)
    some
      { count := (losses.length : ℚ)
        min := rest.foldl (fun acc x => Min.min acc x.value) s.value
        max := rest.foldl (fun acc x => Max.max acc x.value) s.value
        avg := (losses.foldl (· + ·) 0) / (losses.length : ℚ)
        latest := losses.getLastD 0 }

/-- `DashboardSnapshot` from `dashboard/models.py` (wall-clock `generated_at`
modelled as ℚ). -/
structure DashboardSnapshot where
  generated_at : ℚ
  run_id : Option String
  layer : Option ℤ
  activation_rate : ℚ
  total_activations : ℤ
  latest_loss : Option ℚ
  loss_average : Option ℚ
  download_bytes : ℤ := 0
  upload_bytes : ℤ := 0
  forward_count : ℤ := 0
  backward_count : ℤ := 0
  remote_epoch : Option ℤ := none
  local_epoch : Option ℤ := none
  hotkey : Option String := none
  need_to_pull_weights : Bool := false
  phase : Option String := none
  status_message : String := ""
  model_name : Option String := none
  model_size : Option String := none
  total_params : Option ℤ := none
  n_layers : Option ℤ := none
  learning_rate : Option ℚ := none
deriving Repr, DecidableEq

/-- The minimal / placeholder snapshot built in `lifecycle.py` (both in
`start()` and in the error branch of `_snapshot_worker`) and in
`dashboard.py`'s stall branch: every explicitly-passed field is zero or
`None` except `generated_at` and `status_message`. -/
def minimalSnapshot (generated_at : ℚ) (status_message : String) :
    DashboardSnapshot where
  generated_at := generated_at
  run_id := none
  layer := none
  activation_rate := 0
  total_activations := 0
  latest_loss := none
  loss_average := none
  phase := none
  status_message := status_message
  download_bytes := 0
  upload_bytes := 0
  forward_count := 0
  backward_count := 0

/-- `asyncio.Queue(maxsize=5)` created in `MinerDashboard.start`. -/
def snapshotQueueMaxsize : ℕ := 5

/-- `MinerDashboard._publish_snapshot`: `put_nowait`; on `QueueFull` drop one
item with `get_nowait` (the head, i.e. the oldest unread) and then `put` the
new snapshot.  The queue is modelled as a list whose head is the oldest
unread item. -/
def publish_snapshot (q : List DashboardSnapshot) (s : DashboardSnapshot) :
    List DashboardSnapshot :=
  if q.length < snapshotQueueMaxsize then q ++ [s]
  else q.drop 1 ++ [s]

/-- Publishing a sequence of snapshots, oldest first. -/
def publishAll (q : List DashboardSnapshot) (ss : List DashboardSnapshot) :
    List DashboardSnapshot :=
  ss.foldl publish_snapshot q

/-- Outcome of one `self._build_snapshot()` call in the snapshot worker:
either a built snapshot or a raised exception. -/
inductive BuildOutcome where
  | built (s : DashboardSnapshot)
  | buildError
deriving Repr, DecidableEq

/-- Observable effect of one iteration of `_snapshot_worker`'s loop: what got
published and how long the worker then sleeps. -/
structure WorkerTick where
  published : DashboardSnapshot
  delay : ℚ
deriving Repr, DecidableEq

/-- `max_consecutive_errors = 5` in `_snapshot_worker`. -/
def maxConsecutiveErrors : ℕ := 5

/-- One iteration of the `while` loop of `MinerDashboard._snapshot_worker`,
given the current consecutive-error counter and the outcome of
`_build_snapshot` (`now` is the wall clock used for the placeholder's
`generated_at`).  On success the counter resets to 0 and the built snapshot
is published with a normal delay; on failure the counter increments, a
minimal placeholder reporting the error count is published, and the delay is
doubled once the counter has reached `max_consecutive_errors`. -/
def snapshot_worker_tick (refresh_interval : ℚ) (consecutive_errors : ℕ)
    (outcome : BuildOutcome) (now : ℚ) : ℕ × WorkerTick :=
  match outcome with
  | .built s => (0, { published := s, delay := refresh_interval })
  | .buildError =>
    let n := consecutive_errors + 1
    (n,
      { published :=
          minimalSnapshot now
            ("Error building snapshot (" ++ toString n ++ " errors)")
        delay :=
          if maxConsecutiveErrors ≤ n then refresh_interval * 2
          else refresh_interval })

/-- Running the snapshot worker over a list of (build outcome, wall clock)
ticks, threading the consecutive-error counter and collecting each tick's
published snapshot and delay. -/
def run_snapshot_worker (refresh_interval : ℚ) :
    ℕ → List (BuildOutcome × ℚ) → ℕ × List WorkerTick
  | n, [] => (n, [])
  | n, (o, now) :: rest =>
    let step := snapshot_worker_tick refresh_interval n o now
    let tail := run_snapshot_worker refresh_interval step.1 rest
    (tail.1, step.2 :: tail.2)

/-- The mutable state of `TrainingDashboard` (`dashboard.py`) that the `run`
loop touches: the three rolling histories (deques with `maxlen=50`), the
current snapshot, and the snapshot-timeout counter. -/
structure TrainingDashboard where
  loss_history : List ℚ
  throughput_history : List ℚ
  activation_rate_history : List ℚ
  current_snapshot : Option DashboardSnapshot
  _snapshot_timeout_count : ℕ
deriving Repr, DecidableEq

/-- `TrainingDashboard.__init__`: empty histories, no snapshot, zero timeout
counter. -/
def mkTrainingDashboard : TrainingDashboard where
  loss_history := []
  throughput_history := []
  activation_rate_history := []
  current_snapshot := none
  _snapshot_timeout_count := 0

/-- `TrainingDashboard.update_from_snapshot`.  A present `Option ℚ` value
models a finite float, so the `is not None and isfinite` guards become
`isSome` tests, and `activation_rate : ℚ` is always finite. -/
def update_from_snapshot (d : TrainingDashboard) (s : DashboardSnapshot) :
    TrainingDashboard :=
  let d1 := { d with current_snapshot := some s }
  let d2 :=
    match s.latest_loss with
    | some v => { d1 with loss_history := dequeAppend d1.loss_history 50 v }
    | none =>
      match s.loss_average with
      | some v => { d1 with loss_history := dequeAppend d1.loss_history 50 v }
      | none => d1
  { d2 with
    throughput_history := dequeAppend d2.throughput_history 50 s.activation_rate
    activation_rate_history :=
      dequeAppend d2.activation_rate_history 50 s.activation_rate }

/-- One iteration of `TrainingDashboard.run`'s `while True` loop, abstracting
rendering away: `queue` is the channel content at the start of the tick (the
loop drains it completely, keeping only the last `get_nowait` result).  The
returned `Bool` tells whether a stall placeholder was synthesized and
ingested on this tick.  When the drain yields nothing the timeout counter is
incremented and — only if it then exceeds 10 and either no snapshot was ever
ingested or the counter is a multiple of 20 — a placeholder reporting the
timeout count is ingested. -/
def renderer_tick (d : TrainingDashboard) (queue : List DashboardSnapshot)
    (now : ℚ) : TrainingDashboard × Bool :=
  match queue.getLast? with
  | some s => (update_from_snapshot d s, false)
  | none =>
    let n := d._snapshot_timeout_count + 1
    let d2 := { d with _snapshot_timeout_count := n }
    if 10 < n then
      if d2.current_snapshot.isNone ∨ n % 20 = 0 then
        (update_from_snapshot d2
          (minimalSnapshot now
            ("Waiting for snapshots (timeout: " ++ toString n ++ ")")), true)
      else (d2, false)
    else (d2, false)

/-- Running the renderer loop over a list of (queue content, wall clock)
ticks, collecting for each tick whether a stall placeholder was ingested. -/
def run_renderer :
    TrainingDashboard → List (List DashboardSnapshot × ℚ) →
      TrainingDashboard × List Bool
  | d, [] => (d, [])
  | d, (q, now) :: rest =>
    let step := renderer_tick d q now
    let tail := run_renderer step.1 rest
    (tail.1, step.2 :: tail.2)

/-- A value of a chart series: `none` models NaN, `some q` a finite float
(the dashboard feeds the plotter only finite values and NaN, so ±Infinity is
not modelled). -/
abbrev PyFloat := Option ℚ

/-- The argument of `chart.plot`: either a single flat series of numbers or a
list of series (Python dispatches on `isinstance(series[0], list)`). -/
inductive PlotSeries where
  | flat (xs : List PyFloat)
  | nested (xss : List (List PyFloat))
deriving Repr, DecidableEq

/-- The `cfg` dict of `chart.plot`; absent keys are `none`.  The `symbols`
and `format` keys are kept at their defaults. -/
structure PlotCfg where
  min : Option ℚ := none
  max : Option ℚ := none
  height : Option ℚ := none
  offset : ℕ := 3
deriving Repr, DecidableEq

/-- Python's `round` to an integer (banker's rounding: ties go to the even
neighbour), as used by `int(round(...))` in `chart.plot`. -/
def pyRound (q : ℚ) : ℤ :=
  let f := ⌊q⌋
  let r := q - (f : ℚ)
  if r < 1 / 2 then f
  else if 1 / 2 < r then f + 1
  else if f % 2 = 0 then f else f + 1

/-- The label formatter of `chart.plot` (its default `format` entry): fixed
two decimal places, right-aligned to width 8, followed by one space.  This
idealises CPython's float formatting over ℚ. -/
def format2f (q : ℚ) : String :=
  let n := pyRound (q * 100)
  let m := n.natAbs
  let fp := m % 100
  let fpStr := (if fp < 10 then "0" else "") ++ toString fp
  let s := (if n < 0 then "-" else "") ++ toString (m / 100) ++ "." ++ fpStr
  let pad :=
    if s.length < 8 then String.mk (List.replicate (8 - s.length) ' ') else ""
  pad ++ s ++ " "

/-- `result[r][c] = s` on the character grid (grid cells are strings because
Python stores the whole multi-character label in a single cell). -/
def setCell (g : List (List String)) (r c : ℕ) (s : String) :
    List (List String) :=
  g.set r ((g.getD r []).set c s)

/-- Python's `str.rstrip()` on a grid row (the rows only ever contain the
space character as whitespace). -/
def rstrip (s : String) : String :=
  String.mk (s.toList.reverse.dropWhile (· = ' ')).reverse

/-- The rendering part of `chart.plot` (everything after the resolved
`minimum`/`maximum`), producing the joined grid; raises `IndexError` exactly
where Python would (`series[0][0]` on an empty first series). -/
def renderChart (series : List (List PyFloat)) (minimum maximum : ℚ)
    (cfg : PlotCfg) : Except String String :=
  let interval := maximum - minimum
  let offset := cfg.offset
  let height := cfg.height.getD interval
  let ratio := if 0 < interval then height / interval else 1
  let min2 : ℤ := ⌊minimum * ratio⌋
  let max2 : ℤ := ⌈maximum * ratio⌉
  let clamp : ℚ → ℚ := fun n => Min.min (Max.max n minimum) maximum
  let scaled : ℚ → ℤ := fun y => pyRound (clamp y * ratio) - min2
  let rows : ℤ := max2 - min2
  let width := (series.foldl (fun w s => Max.max w s.length) 0) + offset
  let g0 : List (List String) :=
    List.replicate (rows.toNat + 1) (List.replicate width " ")
  let g1 := (List.range (rows.toNat + 1)).foldl (fun g (i : ℕ) =>
    let label := format2f
      (maximum - (i : ℚ) * interval / (if rows = 0 then 1 else (rows : ℚ)))
    let g := setCell g i (offset - label.length) label
    setCell g i (offset - 1) (if min2 + (i : ℤ) = 0 then "┼" else "┤")) g0
  match series.head? with
  | none => .error "list index out of range"
  | some s0 =>
    match s0.head? with
    | none => .error "list index out of range"
    | some d0 =>
      let g2 :=
        match d0 with
        | some v => setCell g1 (rows - scaled v).toNat (offset - 1) "┼"
        | none => g1
      let g3 := series.foldl (fun g s =>
        (List.range (s.length - 1)).foldl (fun g x =>
          match s.getD x none, s.getD (x + 1) none with
          | none, none => g
          | none, some v1 =>
            setCell g (rows - scaled v1).toNat (x + offset) "╶"
          | some v0, none =>
            setCell g (rows - scaled v0).toNat (x + offset) "╴"
          | some v0, some v1 =>
            let y0 := scaled v0
            let y1 := scaled v1
            if y0 = y1 then setCell g (rows - y0).toNat (x + offset) "─"
            else
              let g := setCell g (rows - y1).toNat (x + offset)
                (if y1 < y0 then "╰" else "╭")
              let g := setCell g (rows - y0).toNat (x + offset)
                (if y1 < y0 then "╮" else "╯")
              let start := Min.min y0 y1 + 1
              let stop := Max.max y0 y1
              (List.range (stop - start).toNat).foldl (fun g k =>
                setCell g (rows - (start + (k : ℤ))).toNat (x + offset) "│") g)
          g) g2
      .ok (String.intercalate "\n"
        (g3.map fun row => rstrip (String.join row)))

/-- The common body of `chart.plot` once the input has been normalised to a
list of series: compute `data_min`/`data_max` over the finite values (Python's
`min`/`max` raise `ValueError` when no finite value exists), resolve the
configured bounds, raise when `minimum > maximum`, then render. -/
def plotLists (series : List (List PyFloat)) (cfg : PlotCfg) :
    Except String String :=
  match (series.flatten.filterMap id : List ℚ) with
  | [] => .error "min() arg is an empty sequence"
  | f :: fs =>
    let data_min := fs.foldl Min.min f
    let data_max := fs.foldl Max.max f
    let minimum := match cfg.min with | none => Min.min 0 data_min | some v => v
    let maximum := match cfg.max with | none => data_max | some v => v
    if maximum < minimum then
      .error "The min value cannot exceed the max value."
    else renderChart series minimum maximum cfg

/-- `chart.plot`: empty input yields the empty string; a flat series that is
entirely NaN yields the empty string; otherwise a flat series is wrapped into
a singleton list and rendered. -/
def plot (series : PlotSeries) (cfg : PlotCfg) : Except String String :=
  match series with
  | .flat xs =>
    if xs.length = 0 then .ok ""
    else if xs.all (·.isNone) then .ok ""
    else plotLists [xs] cfg
  | .nested xss =>
    if xss.length = 0 then .ok ""
    else plotLists xss cfg

/-- A call to one of the two activation-recording methods of `StatsTracker`,
with its (monotonic) timestamp. -/
inductive ActivationEvent where
  | fwd (timestamp : ℚ)
  | bwd (timestamp : ℚ)
deriving Repr, DecidableEq

/-- Apply one activation-recording call. -/
def applyActivationEvent (t : StatsTracker) : ActivationEvent → StatsTracker
  | .fwd ts => record_forward t ts
  | .bwd ts => record_backward t ts

/-- Apply a sequence of `record_forward`/`record_backward` calls in order. -/
def applyActivationEvents (t : StatsTracker) (evs : List ActivationEvent) :
    StatsTracker :=
  evs.foldl applyActivationEvent t

/-- A fresh default tracker after 60 `record_forward()` calls spaced 1 second
apart, at monotonic times 0, 1, …, 59 (so the records end at T = 59). -/
def sixtyForwardTracker : StatsTracker :=
  applyActivationEvents mkStatsTracker
    ((List.range 60).map fun i => .fwd (i : ℚ))

/-- A tracker constructed with a non-default configuration:
`StatsTracker(activation_history_window=100.0, loss_history_size=10)`. -/
def customTracker : StatsTracker := mkStatsTracker 100 10

/-- A fresh default tracker after `record_loss(1.0)`, `record_loss(2.0)`,
`record_loss(3.0)` (at times 0, 1, 2). -/
def threeLossTracker : StatsTracker :=
  record_loss (record_loss (record_loss mkStatsTracker 1 0) 2 1) 3 2

/-- A distinguishable concrete snapshot, for channel and renderer runs. -/
def sampleSnapshot (i : ℕ) : DashboardSnapshot :=
  minimalSnapshot (i : ℚ) ("snapshot " ++ toString i)

/-- A full channel: five snapshots already queued. -/
def fullQueue : List DashboardSnapshot := (List.range 5).map sampleSnapshot

/-- Six consecutive snapshot-build failures at wall-clock times 0…5. -/
def sixFailures : List (BuildOutcome × ℚ) :=
  [(.buildError, 0), (.buildError, 1), (.buildError, 2),
   (.buildError, 3), (.buildError, 4), (.buildError, 5)]

/-- A renderer trace: one tick that drains a real snapshot, followed by 11
ticks whose drain yields nothing (the channel stays empty). -/
def stallAfterSnapshotTrace : List (List DashboardSnapshot × ℚ) :=
  ([sampleSnapshot 0], (0 : ℚ)) ::
    (List.range 11).map fun i => (([] : List DashboardSnapshot), (i : ℚ) + 1)

/-- A renderer trace of 11 empty-drain ticks on a renderer that has never
received any snapshot. -/
def freshStallTrace : List (List DashboardSnapshot × ℚ) :=
  (List.range 11).map fun i => (([] : List DashboardSnapshot), (i : ℚ))

/-! ## Helper lemmas -/

theorem forward_count_record_forward (t : StatsTracker) (ts : ℚ) :
    forward_count (record_forward t ts) = forward_count t + 1 := rfl

theorem forward_count_record_backward (t : StatsTracker) (ts : ℚ) :
    forward_count (record_backward t ts) = forward_count t := rfl

theorem backward_count_record_forward (t : StatsTracker) (ts : ℚ) :
    backward_count (record_forward t ts) = backward_count t := rfl

theorem backward_count_record_backward (t : StatsTracker) (ts : ℚ) :
    backward_count (record_backward t ts) = backward_count t + 1 := rfl

theorem forward_count_le_applyEvents :
    ∀ (evs : List ActivationEvent) (t : StatsTracker),
      forward_count t ≤ forward_count (applyActivationEvents t evs)
  | [], _ => le_rfl
  | e :: rest, t => by
    have htail := forward_count_le_applyEvents rest (applyActivationEvent t e)
    have hstep : forward_count t ≤ forward_count (applyActivationEvent t e) := by
      cases e <;>
        simp [applyActivationEvent, forward_count_record_forward,
          forward_count_record_backward]
    calc forward_count t ≤ forward_count (applyActivationEvent t e) := hstep
      _ ≤ forward_count (applyActivationEvents (applyActivationEvent t e) rest) :=
          htail

theorem backward_count_le_applyEvents :
    ∀ (evs : List ActivationEvent) (t : StatsTracker),
      backward_count t ≤ backward_count (applyActivationEvents t evs)
  | [], _ => le_rfl
  | e :: rest, t => by
    have htail := backward_count_le_applyEvents rest (applyActivationEvent t e)
    have hstep : backward_count t ≤ backward_count (applyActivationEvent t e) := by
      cases e <;>
        simp [applyActivationEvent, backward_count_record_forward,
          backward_count_record_backward]
    calc backward_count t ≤ backward_count (applyActivationEvent t e) := hstep
      _ ≤ backward_count (applyActivationEvents (applyActivationEvent t e) rest) :=
          htail

/-! ## Claim theorems -/

/-- C4: for every sequence of `record_forward()`/`record_backward()` calls,
`total_activations` equals `forward_count + backward_count`, and both
counters are non-negative and monotonically non-decreasing (no `reset()` in
the sequence). -/
theorem C4_counters_invariant :
    (∀ t : StatsTracker,
        total_activations t = forward_count t + backward_count t) ∧
    (∀ evs : List ActivationEvent,
        0 ≤ forward_count (applyActivationEvents mkStatsTracker evs) ∧
        0 ≤ backward_count (applyActivationEvents mkStatsTracker evs)) ∧
    (∀ (t : StatsTracker) (evs : List ActivationEvent),
        forward_count t ≤ forward_count (applyActivationEvents t evs) ∧
        backward_count t ≤ backward_count (applyActivationEvents t evs)) := by
  refine ⟨fun t => rfl, fun evs => ⟨?_, ?_⟩, fun t evs =>
    ⟨forward_count_le_applyEvents evs t, backward_count_le_applyEvents evs t⟩⟩
  · exact le_trans le_rfl (forward_count_le_applyEvents evs mkStatsTracker)
  · exact le_trans le_rfl (backward_count_le_applyEvents evs mkStatsTracker)

/-- C5: `record_download(n)`/`record_upload(n)` raise `ValueError` for
negative `n` (leaving the tracker unchanged — no state is produced on the
error path) and add `n` to the respective byte total for non-negative `n`. -/
theorem C5_byte_count_validation (t : StatsTracker) (n : ℤ) :
    (n < 0 →
      record_download t n = .error "byte_count must be non-negative" ∧
      record_upload t n = .error "byte_count must be non-negative") ∧
    (0 ≤ n →
      record_download t n = .ok { t with _download_bytes := t._download_bytes + n } ∧
      record_upload t n = .ok { t with _upload_bytes := t._upload_bytes + n }) := by
  constructor
  · intro h
    exact ⟨by simp [record_download, h], by simp [record_upload, h]⟩
  · intro h
    exact ⟨by simp [record_download, not_lt.mpr h],
      by simp [record_upload, not_lt.mpr h]⟩

/-- Witness for C5 at `n = -1` and `n = 5` on a fresh tracker. -/
theorem C5_byte_count_validation_witness :
    record_download mkStatsTracker (-1) = .error "byte_count must be non-negative" ∧
    record_upload mkStatsTracker (-1) = .error "byte_count must be non-negative" ∧
    record_download mkStatsTracker 5 =
      .ok { mkStatsTracker with _download_bytes := mkStatsTracker._download_bytes + 5 } :=
  ⟨(C5_byte_count_validation mkStatsTracker (-1)).1 (by norm_num) |>.1,
   (C5_byte_count_validation mkStatsTracker (-1)).1 (by norm_num) |>.2,
   (C5_byte_count_validation mkStatsTracker 5).2 (by norm_num) |>.1⟩

/-- C10: `set_phase(x)` with `x` not `None` stores `str(x)` in
`current_phase`, and `set_run_id(x)` stores `str(x)` in `run_id`; enum-like
values are coerced to strings; `None` clears the field. -/
theorem C10_setters_coerce_to_str (t : StatsTracker) (x : PyValue) :
    (set_phase t (some x)).current_phase = some (pyStr x) ∧
    (set_phase t none).current_phase = none ∧
    (set_run_id t (some x)).run_id = some (pyStr x) ∧
    (set_run_id t none).run_id = none ∧
    pyStr (.enumMember "LayerPhase" "TRAINING") = "LayerPhase.TRAINING" :=
  ⟨rfl, rfl, rfl, rfl, rfl⟩

/-- C2 (bug evidence): `reset()` on a tracker configured with
`activation_history_window=100.0, loss_history_size=10` overwrites both
configuration fields with their defaults (300.0 and 50), while the loss
deque's `maxlen` stays 10 — contradicting `reset`'s own docstring, which says
configuration fields are preserved. -/
theorem C2_reset_overwrites_config :
    customTracker.activation_history_window = 100 ∧
    customTracker.loss_history_size = 10 ∧
    (reset customTracker).activation_history_window = 300 ∧
    (reset customTracker).loss_history_size = 50 ∧
    (reset customTracker)._loss_maxlen = 10 :=
  ⟨rfl, rfl, rfl, rfl, rfl⟩

set_option maxRecDepth 100000 in
unseal Rat.add Rat.mul Rat.sub Rat.inv in
/-- C6: `loss_summary()` returns `None` exactly when no loss samples exist;
after recording losses 1.0, 2.0, 3.0 on a fresh tracker it returns
count 3, min 1.0, max 3.0, avg 2.0, latest 3.0. -/
theorem C6_loss_summary :
    (∀ t : StatsTracker, loss_summary t = none ↔ t._loss_history = []) ∧
    loss_summary threeLossTracker =
      some { count := 3, min := 1, max := 3, avg := 2, latest := 3 } := by
  constructor
  · intro t
    cases h : t._loss_history <;> simp [loss_summary, h]
  · decide

/-- C3: with the capacity-5 snapshot channel, publishing 7 snapshots with no
drain leaves exactly the 5 most recently published snapshots, in publication
order; on each overflow `_publish_snapshot` discards the oldest unread item
(the queue head), never the newest. -/
theorem C3_channel_drop_oldest :
    (∀ s1 s2 s3 s4 s5 s6 s7 : DashboardSnapshot,
        publishAll [] [s1, s2, s3, s4, s5, s6, s7] = [s3, s4, s5, s6, s7]) ∧
    (∀ (q : List DashboardSnapshot) (s : DashboardSnapshot),
        q.length = snapshotQueueMaxsize →
        publish_snapshot q s = q.drop 1 ++ [s]) := by
  constructor
  · intro s1 s2 s3 s4 s5 s6 s7
    simp [publishAll, publish_snapshot, snapshotQueueMaxsize]
  · intro q s h
    simp [publish_snapshot, h]

/-- Witness for C3's overflow clause on a concrete full queue. -/
theorem C3_channel_drop_oldest_witness :
    publish_snapshot fullQueue (sampleSnapshot 9) =
      fullQueue.drop 1 ++ [sampleSnapshot 9] :=
  C3_channel_drop_oldest.2 fullQueue (sampleSnapshot 9) rfl

set_option maxRecDepth 100000 in
unseal Rat.add Rat.mul Rat.sub Rat.inv in
/-- C8: in the snapshot worker, every failed build publishes a minimal
placeholder whose status message reports the consecutive-error count, the
inter-tick delay doubles exactly once the counter has reached the threshold
of 5 (so over 6 consecutive failures the backoff applies from the 5th tick
on, while a placeholder is published on all 6 ticks), and a successful build
resets the counter. -/
theorem C8_worker_backoff :
    (run_snapshot_worker 1 0 sixFailures).2 =
      [{ published := minimalSnapshot 0 "Error building snapshot (1 errors)", delay := 1 },
       { published := minimalSnapshot 1 "Error building snapshot (2 errors)", delay := 1 },
       { published := minimalSnapshot 2 "Error building snapshot (3 errors)", delay := 1 },
       { published := minimalSnapshot 3 "Error building snapshot (4 errors)", delay := 1 },
       { published := minimalSnapshot 4 "Error building snapshot (5 errors)", delay := 2 },
       { published := minimalSnapshot 5 "Error building snapshot (6 errors)", delay := 2 }] ∧
    (∀ (r : ℚ) (n : ℕ) (now : ℚ),
      (snapshot_worker_tick r n .buildError now).2.published =
        minimalSnapshot now
          ("Error building snapshot (" ++ toString (n + 1) ++ " errors)") ∧
      (snapshot_worker_tick r n .buildError now).2.delay =
        (if maxConsecutiveErrors ≤ n + 1 then r * 2 else r)) ∧
    (∀ (r : ℚ) (n : ℕ) (now : ℚ) (s : DashboardSnapshot),
      snapshot_worker_tick r n (.built s) now =
        (0, { published := s, delay := r })) :=
  ⟨by decide, fun r n now => ⟨rfl, rfl⟩, fun r n now s => rfl⟩

set_option maxRecDepth 100000 in
unseal Rat.add Rat.mul Rat.sub Rat.inv in
/-- C1 counterexample: 60 forward records at monotonic times 0…59 (spaced
1 second apart, ending at T = 59) give
`activation_rate(window_seconds=60)` = 60 / (59 + 1e-6) * 60 =
3600000000/59000001 ≈ 61.017 at time T — more than 1 activation/min above
60.0, so not ≈ 60.0 up to rounding (the 60 samples span only 59 seconds). -/
theorem C1_sixty_records_not_sixty :
    (activation_rate sixtyForwardTracker 59 (some 60)).2 =
      3600000000 / 59000001 ∧
    1 < (activation_rate sixtyForwardTracker 59 (some 60)).2 - 60 := by
  constructor <;> decide

set_option maxRecDepth 100000 in
unseal Rat.add Rat.mul Rat.sub Rat.inv in
/-- C1 (amended): `activation_rate` first prunes samples older than the
window and returns the pruned tracker; it returns 0.0 when the window is
≤ 0 or when no samples exist; and on 60 forward records spaced 1 s apart
ending at T = 59 it returns `count / min(window, now - oldest + 1e-6) * 60`
= 3600000000/59000001 ≈ 61.0 (not ≈ 60.0), after which all 60 samples
remain and none is older than T − 60. -/
theorem C1_activation_rate :
    (∀ (t : StatsTracker) (now : ℚ) (w : Option ℚ),
      (activation_rate t now w).1 =
        _prune_activations t now (w.getD t.activation_history_window)) ∧
    (∀ (t : StatsTracker) (now w : ℚ), w ≤ 0 →
      (activation_rate t now (some w)).2 = 0) ∧
    (∀ (t : StatsTracker) (now : ℚ) (w : Option ℚ), t._activations = [] →
      (activation_rate t now w).2 = 0) ∧
    (activation_rate sixtyForwardTracker 59 (some 60)).2 =
      3600000000 / 59000001 ∧
    ((activation_rate sixtyForwardTracker 59 (some 60)).1._activations.all
      fun s => decide (59 - (60 : ℚ) ≤ s.timestamp)) = true ∧
    (activation_rate sixtyForwardTracker 59 (some 60)).1._activations.length =
      60 := by
  refine ⟨?_, ?_, ?_, by decide, by decide, by decide⟩
  · intro t now w
    cases h : (_prune_activations t now
        (w.getD t.activation_history_window))._activations with
    | nil => simp [activation_rate, h]
    | cons a rest =>
      simp only [activation_rate, h]
      split <;> rfl
  · intro t now w hw
    unfold activation_rate
    simp only [Option.getD_some]
    split
    · rfl
    · rw [if_pos (Or.inr hw)]
  · intro t now w h
    unfold activation_rate
    simp [_prune_activations, h]

/-- Witness for C1's hypotheses: window 0 on a fresh tracker, and the `None`
window on a tracker with no samples, both give rate 0. -/
theorem C1_activation_rate_witness :
    (activation_rate mkStatsTracker 5 (some 0)).2 = 0 ∧
    (activation_rate mkStatsTracker 7 none).2 = 0 :=
  ⟨C1_activation_rate.2.1 mkStatsTracker 5 0 le_rfl,
   C1_activation_rate.2.2.1 mkStatsTracker 7 none rfl⟩

theorem filterMap_id_flatten_eq_nil {xss : List (List PyFloat)}
    (h : (xss.all fun xs => xs.all (·.isNone)) = true) :
    (xss.flatten.filterMap id : List ℚ) = [] := by
  rw [List.filterMap_eq_nil_iff]
  intro a ha
  rw [List.mem_flatten] at ha
  obtain ⟨xs, hxs, hax⟩ := ha
  simp only [List.all_eq_true] at h
  have h2 := h xs hxs a hax
  simpa [Option.isNone_iff_eq_none] using h2

/-- C7 counterexample: a list of two all-NaN series with the default
configuration makes `plot` raise `ValueError` (Python's `min` over an empty
sequence of finite values), instead of returning the empty output the claim
requires for that input. -/
theorem C7_nested_all_nan_raises :
    plot (.nested [[none], [none]]) ({} : PlotCfg) =
      .error "min() arg is an empty sequence" ∧
    plot (.nested [[none], [none]]) ({} : PlotCfg) ≠ .ok "" := by
  have h1 : plot (.nested [[none], [none]]) ({} : PlotCfg) =
      .error "min() arg is an empty sequence" := rfl
  exact ⟨h1, by rw [h1]; simp⟩

/-- C7 (amended): `plot` returns empty output on an empty series (flat or
nested) and on a single flat series whose values are all NaN (whatever the
configuration); but a nested list of series whose values are all NaN raises
`ValueError` from `min` over an empty sequence rather than returning empty
output. -/
theorem C7_plot_empty_cases :
    (∀ cfg : PlotCfg,
      plot (.flat []) cfg = .ok "" ∧ plot (.nested []) cfg = .ok "") ∧
    (∀ (xs : List PyFloat) (cfg : PlotCfg), xs.all (·.isNone) = true →
      plot (.flat xs) cfg = .ok "") ∧
    (∀ (xss : List (List PyFloat)) (cfg : PlotCfg), xss ≠ [] →
      (xss.all fun xs => xs.all (·.isNone)) = true →
      plot (.nested xss) cfg = .error "min() arg is an empty sequence") := by
  refine ⟨fun cfg => ⟨rfl, rfl⟩, ?_, ?_⟩
  · intro xs cfg h
    unfold plot
    by_cases hlen : xs.length = 0
    · simp [hlen]
    · simp [hlen, h]
  · intro xss cfg h1 h2
    simp only [plot]
    rw [if_neg (by simpa [List.length_eq_zero] using h1)]
    simp only [plotLists]
    rw [filterMap_id_flatten_eq_nil h2]

/-- Witness for C7's hypotheses: the all-NaN singleton flat series and the
all-NaN pair of nested series. -/
theorem C7_plot_empty_cases_witness :
    plot (.flat [none]) ({} : PlotCfg) = .ok "" ∧
    plot (.nested [[none], [none]]) ({} : PlotCfg) =
      .error "min() arg is an empty sequence" :=
  ⟨C7_plot_empty_cases.2.1 [none] {} (by decide),
   C7_plot_empty_cases.2.2 [[none], [none]] {} (by decide) (by decide)⟩

theorem update_from_snapshot_timeout_count (d : TrainingDashboard)
    (s : DashboardSnapshot) :
    (update_from_snapshot d s)._snapshot_timeout_count =
      d._snapshot_timeout_count := by
  unfold update_from_snapshot
  split
  · rfl
  · split <;> rfl

set_option maxRecDepth 100000 in
/-- C9 counterexample: a renderer that ingested one real snapshot and then
drains nothing for 11 consecutive ticks (the channel staying empty) never
synthesizes a stall placeholder — the display keeps showing the stale
snapshot — because the placeholder branch additionally requires that no
snapshot was ever ingested or that the timeout counter be a multiple
of 20. -/
theorem C9_stalled_renderer_no_placeholder :
    (run_renderer mkTrainingDashboard stallAfterSnapshotTrace).2 =
      List.replicate 12 false ∧
    (run_renderer mkTrainingDashboard stallAfterSnapshotTrace).1.current_snapshot =
      some (sampleSnapshot 0) := by
  constructor <;> decide

set_option maxRecDepth 100000 in
/-- C9 (amended): each empty drain increments a cumulative timeout counter
(a tick that drains a snapshot neither increments nor resets it), and a
stall placeholder whose status message reports the timeout count is
synthesized and ingested exactly when the incremented counter exceeds 10
and either no snapshot was ever ingested or the counter is a multiple of
20; in particular a renderer that never received a snapshot ingests the
placeholder `Waiting for snapshots (timeout: 11)` on its 11th empty tick. -/
theorem C9_renderer_stall :
    (∀ (d : TrainingDashboard) (q : List DashboardSnapshot) (now : ℚ),
      q ≠ [] →
      (renderer_tick d q now).2 = false ∧
      (renderer_tick d q now).1._snapshot_timeout_count =
        d._snapshot_timeout_count) ∧
    (∀ (d : TrainingDashboard) (now : ℚ),
      (renderer_tick d [] now).1._snapshot_timeout_count =
        d._snapshot_timeout_count + 1 ∧
      (renderer_tick d [] now).2 =
        (decide (10 < d._snapshot_timeout_count + 1) &&
          (d.current_snapshot.isNone ||
            decide ((d._snapshot_timeout_count + 1) % 20 = 0)))) ∧
    (run_renderer mkTrainingDashboard freshStallTrace).2 =
      List.replicate 10 false ++ [true] ∧
    ((run_renderer mkTrainingDashboard freshStallTrace).1.current_snapshot.map
      (·.status_message)) = some "Waiting for snapshots (timeout: 11)" := by
  refine ⟨?_, ?_, by decide, by decide⟩
  · intro d q now h
    obtain ⟨s, hs⟩ := List.getLast?_isSome.2 h |> Option.isSome_iff_exists.1
    unfold renderer_tick
    rw [hs]
    exact ⟨rfl, update_from_snapshot_timeout_count d s⟩
  · intro d now
    unfold renderer_tick
    simp only [List.getLast?]
    constructor
    · split_ifs <;>
        simp [update_from_snapshot_timeout_count]
    · by_cases h1 : 10 < d._snapshot_timeout_count + 1
      · by_cases h2 : d.current_snapshot.isNone = true
        · simp [h1, h2]
        · by_cases h3 : (d._snapshot_timeout_count + 1) % 20 = 0
          · simp [h1, h2, h3]
          · simp [h1, h2, h3]
      · simp [h1]

/-- Witness for C9's non-empty-drain clause on a concrete drained queue. -/
theorem C9_renderer_stall_witness :
    (renderer_tick mkTrainingDashboard [sampleSnapshot 0] 0).2 = false ∧
    (renderer_tick mkTrainingDashboard [sampleSnapshot 0] 0).1._snapshot_timeout_count =
      mkTrainingDashboard._snapshot_timeout_count :=
  C9_renderer_stall.1 mkTrainingDashboard [sampleSnapshot 0] 0
    (List.cons_ne_nil _ _)

end IotaTPU
